import Mathlib

/-!
Shallow embedding of the natural-language trigger/condition parser of
`Core/automation/lib/python/core/triggers.py` and
`Core/automation/lib/python/core/conditions.py`.

Modelling conventions:
* A phrase is modelled as its list of whitespace-separated tokens (the Python
  code strips the phrase and splits on whitespace; every regex in the source is
  a `^tok(\s+tok)*$` shape, so token lists are the natural domain).  Quoted
  state values that span several tokens are outside the model; every theorem
  below uses single-token values, on which the token model and the regexes
  agree.
* Python `None` inside a configuration dict is `Value.none`; a grammar-class
  `parse` returning `None` (no match) is `Option.none`; a raised exception is
  `Except.error`.
* The external entity registry (openHAB `itemRegistry` / `things`) is not part
  of the repository; it is modelled from the spec (see `Registry`).
-/

set_option maxRecDepth 8192

namespace OHP

/-- Values stored in a trigger/condition configuration dict.  `Value.none` is
Python `None` stored as a dict value. -/
inductive Value where
  | str (s : String)
  | int (n : Int)
  | bool (b : Bool)
  | none
deriving DecidableEq, Repr

/-- A configuration dict, as an ordered association list (insertion order). -/
abbrev Config := List (String × Value)

/-- A built trigger or condition object: the runtime type UID given to
`withTypeUID` plus the configuration given to `withConfiguration`. -/
structure Descriptor where
  typeUID : String
  config : Config
deriving DecidableEq, Repr

/-- Result of a grammar class `parse`: a single trigger object or a Python list
of trigger objects (the source distinguishes the two with `isinstance(_, list)`). -/
inductive ParseResult where
  | one (d : Descriptor)
  | many (ds : List Descriptor)
deriving DecidableEq, Repr

/-- Python exceptions raised by the parsing code. -/
inductive PyError where
  | valueError (msg : String)
  | indexError
deriving DecidableEq, Repr

deriving instance DecidableEq for Except

/-- Modelled from the spec: an item of the external entity registry (§6); a
group item carries its ordered immediate members. -/
inductive Item where
  | mk (name : String) (members : List Item)

/-- Name of an item. -/
def Item.name : Item → String
  | .mk n _ => n

/-- Modelled from the spec: `members(group)` — the ordered immediate members. -/
def Item.getMembers : Item → List Item
  | .mk _ ms => ms

mutual

/-- Modelled from the spec: `allMembers(group)` — the full transitive
membership, in enumeration order. -/
def Item.getAllMembers : Item → List Item
  | .mk _ ms => allMembersList ms

/-- Transitive membership of a list of items. -/
def allMembersList : List Item → List Item
  | [] => []
  | m :: rest => m :: (Item.getAllMembers m ++ allMembersList rest)

end

/-- Modelled from the spec: the external entity-registry collaborator (§6).
Things and channels are only ever tested for existence by the source, so they
are modelled as presence predicates. -/
structure Registry where
  items : String → Option Item
  things : String → Bool
  channels : String → Bool

/-- Lower-case a string (structurally, so that proofs can evaluate it). -/
def strLower (s : String) : String := String.mk (s.data.map Char.toLower)

/-- Drop the first `n` characters of a string. -/
def strDrop (s : String) (n : Nat) : String := String.mk (s.data.drop n)

/-- Does `s` start with `p`? -/
def strStartsWith (s p : String) : Bool := p.data.isPrefixOf s.data

/-- Python `str.strip()` (the inputs in this development only use the common
whitespace characters, which `Char.isWhitespace` covers). -/
def pyStrip (s : String) : String :=
  String.mk (((s.data.dropWhile Char.isWhitespace).reverse.dropWhile
    Char.isWhitespace).reverse)

/-- Helper for `pySplit`: the accumulator holds the current word reversed. -/
def pySplitAux : List Char → List Char → List String
  | [], acc => if acc.isEmpty then [] else [String.mk acc.reverse]
  | c :: rest, acc =>
    if c.isWhitespace then
      (if acc.isEmpty then [] else [String.mk acc.reverse]) ++ pySplitAux rest []
    else
      pySplitAux rest (c :: acc)

/-- Python `str.split()` (split on whitespace runs, dropping empty pieces). -/
def pySplit (s : String) : List String := pySplitAux s.data []

/-- Join a token list back into the raw phrase text. -/
def joinTokens : List String → String
  | [] => ""
  | [t] => t
  | t :: rest => t ++ " " ++ joinTokens rest

/-- Python `w in s` for strings: substring containment. -/
def pyIn (w s : String) : Bool :=
  s.data.tails.any fun t => w.data.isPrefixOf t

/-- A regex `\w` character: `[A-Za-z0-9_]`. -/
def wordChar (c : Char) : Bool := c.isAlphanum || c == '_'

/-- A token that `\w+` consumes entirely (needed when the regex continues with
`\s+` or `$` right after the group). -/
def isWordToken (s : String) : Bool := s ≠ "" && s.data.all wordChar

/-- A token that is entirely digits (`\d+`). -/
def isDigitsToken (s : String) : Bool := s ≠ "" && s.data.all Char.isDigit

/-- Python truthiness of a `Bool`-or-`None` value. -/
def truthy : Option Bool → Bool
  | some b => b
  | Option.none => false

/-! ### `isValidExpression` (triggers.py fallback definition)

```python
def isValidExpression(expr):
    expr = expr.strip()
    if expr.startswith("@"):
        return re.match(r"@(annually|yearly|monthly|weekly|daily|hourly|reboot)", expr) is not None
    parts = expr.split()
    if 6 <= len(parts) <= 7:
        for i in range(len(parts)):
            if not re.match(r"\?|(\*|\d+)(\/\d+)?|(\d+|\w{3})(\/|-)(\d+|\w{3})|((\d+|\w{3}),)*(\d+|\w{3})", parts[i]):
                return False
        return True
        return False     # unreachable
    # falls off the end: returns None (falsy) when len(parts) is not 6..7
```
`re.match` anchors at the start only, so each alternative needs to match a
prefix of the field. -/

/-- The named `@`-schedules accepted by the fallback validator. -/
def atScheduleNames : List String :=
  ["annually", "yearly", "monthly", "weekly", "daily", "hourly", "reboot"]

/-- Does the character list start with at least one digit (`\d+` as a prefix)? -/
def startsDigits : List Char → Bool
  | c :: _ => c.isDigit
  | [] => false

/-- Number of leading digit characters. -/
def leadDigitCount : List Char → Nat
  | c :: rest => if c.isDigit then leadDigitCount rest + 1 else 0
  | [] => 0

/-- Do the first three characters exist and are they all word characters
(`\w{3}` as a prefix)? -/
def startsWord3 : List Char → Bool
  | a :: b :: c :: _ => wordChar a && wordChar b && wordChar c
  | _ => false

/-- Prefix match of `(\d+|\w{3})`. -/
def startsTok (cs : List Char) : Bool := startsDigits cs || startsWord3 cs

/-- Prefix match of `(\/|-)(\d+|\w{3})`. -/
def sepTok : List Char → Bool
  | c :: rest => (c == '/' || c == '-') && startsTok rest
  | [] => false

/-- Prefix match of `(\d+|\w{3})(\/|-)(\d+|\w{3})`.  Inside `\d+` the separator
can only sit right after the maximal run of digits (backtracking into a shorter
run would put a digit, not a separator, next), hence the `leadDigitCount`. -/
def rangeAlt (cs : List Char) : Bool :=
  (decide (1 ≤ leadDigitCount cs) && sepTok (cs.drop (leadDigitCount cs)))
    || (startsWord3 cs && sepTok (cs.drop 3))

/-- One field of a candidate cron expression: `re.match` of
`\?|(\*|\d+)(\/\d+)?|(\d+|\w{3})(\/|-)(\d+|\w{3})|((\d+|\w{3}),)*(\d+|\w{3})`
(anchored at the start only, so a prefix match of any alternative suffices;
the optional `(\/\d+)?` tail and zero-repetition comma groups never constrain a
prefix match). -/
def cronPartOK (part : String) : Bool :=
  let cs := part.data
  (match cs with | '?' :: _ => true | _ => false)
    || (match cs with | '*' :: _ => true | _ => false)
    || startsDigits cs
    || rangeAlt cs
    || startsTok cs

/-- The fallback `isValidExpression` of triggers.py.  Returns `Option.none` for
the implicit Python `None` when the field count is not 6 or 7. -/
def isValidExpression (expr : String) : Option Bool :=
  let e := pyStrip expr
  if strStartsWith e "@" then
    some (atScheduleNames.any fun n => strStartsWith (strDrop e 1) n)
  else
    let parts := pySplit e
    if 6 ≤ parts.length ∧ parts.length ≤ 7 then
      some (parts.all cronPartOK)
    else
      Option.none

/-! ### CronTrigger -/

/-- Embeds `CronTrigger.__init__`: type UID `timer.GenericCronTrigger`, configuration
`{'cronExpression': cron_expression}`. -/
def CronTrigger.mkTrigger (cron_expression : String) : Descriptor :=
  { typeUID := "timer.GenericCronTrigger",
    config := [("cronExpression", Value.str cron_expression)] }

/-- The recognizer regex of `CronTrigger.parse`
`^Time\s+(?:cron\s+(?P<cronExpression>.*)|is\s+(?P<namedInstant>midnight|noon))$`
(IGNORECASE), returning the cron expression the match branch computes: the
captured raw expression, or the literal schedule derived from the named
instant.  The source compares the positional group 2 (the captured token, in
its original case) against the lower-case literal `"midnight"`, so e.g.
`MIDNIGHT` matches the regex but falls into the noon branch. -/
def CronTrigger.matchTarget : List String → Option String
  | t0 :: t1 :: rest =>
    if strLower t0 == "time" then
      if strLower t1 == "cron" && !rest.isEmpty then
        some (joinTokens rest)
      else if strLower t1 == "is" then
        match rest with
        | [t2] =>
          if strLower t2 == "midnight" || strLower t2 == "noon" then
            some (if t2 == "midnight" then "0 0 0 * * ?" else "0 0 12 * * ?")
          else Option.none
        | _ => Option.none
      else Option.none
    else Option.none
  | _ => Option.none

/-- Embeds `CronTrigger.parse`: when the regex does not match, the whole raw phrase is
used as the candidate cron expression; the candidate is accepted only if
`isValidExpression` is truthy. -/
def CronTrigger.parse (target : List String) : Option Descriptor :=
  let cronExpression :=
    match CronTrigger.matchTarget target with
    | some e => e
    | Option.none => joinTokens target
  if truthy (isValidExpression cronExpression) then
    some (CronTrigger.mkTrigger cronExpression)
  else
    Option.none

example : CronTrigger.parse ["Time", "cron", "0", "0", "*", "*", "*", "?"]
    = some (CronTrigger.mkTrigger "0 0 * * * ?") := by decide
example : CronTrigger.parse ["Time", "cron", "not-a-cron"] = Option.none := by decide
example : CronTrigger.parse ["Time", "is", "midnight"]
    = some (CronTrigger.mkTrigger "0 0 0 * * ?") := by decide
example : CronTrigger.parse ["Time", "is", "MIDNIGHT"]
    = some (CronTrigger.mkTrigger "0 0 12 * * ?") := by decide

/-! ### StartupTrigger -/

/-- Embeds `StartupTrigger.__init__`: `startLevel` defaults to 40 when `None`; the
parse path passes the captured digits as a string. -/
def StartupTrigger.mkTrigger (startLevel : Option String) : Descriptor :=
  { typeUID := "core.SystemStartlevelTrigger",
    config := [("startlevel",
      match startLevel with
      | Option.none => Value.int 40
      | some s => Value.str s)] }

/-- Embeds `StartupTrigger.parse`: regex
`^System\s+(?:started|reached\s+start\s+level\s+(?P<startLevel>\d+))$` (IGNORECASE). -/
def StartupTrigger.parse : List String → Option Descriptor
  | [t0, t1] =>
    if strLower t0 == "system" && strLower t1 == "started" then
      some (StartupTrigger.mkTrigger Option.none)
    else Option.none
  | [t0, t1, t2, t3, t4] =>
    if strLower t0 == "system" && strLower t1 == "reached" && strLower t2 == "start"
        && strLower t3 == "level" && isDigitsToken t4 then
      some (StartupTrigger.mkTrigger (some t4))
    else Option.none
  | _ => Option.none

/-! ### DateTimeTrigger -/

/-- Embeds `DateTimeTrigger.__init__`: the `timeOnly` key is stored whenever the
parameter is not Python `None`; the parse path always passes a bool, so the
key is then always present. -/
def DateTimeTrigger.mkTrigger (itemName : String) (timeOnly : Option Bool) : Descriptor :=
  { typeUID := "timer.DateTimeTrigger",
    config := [("itemName", Value.str itemName)] ++
      (match timeOnly with
       | some b => [("timeOnly", Value.bool b)]
       | Option.none => []) }

/-- A `\[(?P<timeOnly>timeOnly)\]` token: returns the captured inner word
(original case; the regex is IGNORECASE). -/
def timeOnlyBracket (t : String) : Option String :=
  if strLower t == "[timeonly]" then
    some (String.mk ((t.data.drop 1).dropLast))
  else Option.none

/-- A run of `(?:\s+\[(?P<timeOnly>timeOnly)\])*` tokens; yields the last
capture (`Option.none` when the run is empty), or fails when some token is not
such a bracket. -/
def bracketRun : List String → Option (Option String)
  | [] => some Option.none
  | t :: rest =>
    match timeOnlyBracket t, bracketRun rest with
    | some w, some cap =>
      some (match cap with
            | some c => some c
            | Option.none => some w)
    | _, _ => Option.none

/-- Embeds `DateTimeTrigger.parse`: regex
`^Time\s+is\s+(?P<itemName>\S*)(?:\s+\[(?P<timeOnly>timeOnly)\])*$` (IGNORECASE);
an unresolved item name raises `ValueError`.  The source passes
`match.group('timeOnly') == "timeOnly"` — a bool — to the constructor, so the
`timeOnly` key is stored even when the flag is absent from the phrase. -/
def DateTimeTrigger.parse (reg : Registry) : List String → Except PyError (Option ParseResult)
  | t0 :: t1 :: t2 :: rest =>
    if strLower t0 == "time" && strLower t1 == "is" then
      match bracketRun rest with
      | some cap =>
        match reg.items t2 with
        | Option.none => throw (PyError.valueError ("Invalid item name: " ++ t2))
        | some _ =>
          pure (some (ParseResult.one
            (DateTimeTrigger.mkTrigger t2 (some (cap == some "timeOnly")))))
      | Option.none => pure Option.none
    else pure Option.none
  | _ => pure Option.none

/-! ### Item triggers (ItemStateUpdate / ItemStateChange / ItemCommand)

All three share the head
`^(?:(?P<subItems>Member|Descendent)\s+of|Item)\s+(?P<itemName>\w+)\s+...`
(IGNORECASE), and after resolving the item compare the captured `subItems`
token **case-sensitively** against `"Member"` to choose `getMembers()` versus
`getAllMembers()`. -/

/-- Match the shared head; returns (subItems capture, itemName, remaining
tokens).  `\w+` has to consume the whole item-name token because the regex
continues with `\s+`. -/
def itemHead : List String → Option (Option String × String × List String)
  | t0 :: rest =>
    if strLower t0 == "member" || strLower t0 == "descendent" then
      match rest with
      | t1 :: t2 :: rest2 =>
        if strLower t1 == "of" && isWordToken t2 then some (some t0, t2, rest2)
        else Option.none
      | _ => Option.none
    else if strLower t0 == "item" then
      match rest with
      | t1 :: rest1 => if isWordToken t1 then some (Option.none, t1, rest1) else Option.none
      | [] => Option.none
    else Option.none
  | [] => Option.none

/-- Last capture of a repeated single-token group such as
`(?:\s+(?P<state>'[^']+'|\S+))*` (every token is one repetition; the final
repetition wins). -/
def lastTokenCapture : List String → Option String
  | [] => Option.none
  | [t] => some t
  | _ :: rest => lastTokenCapture rest

/-- Greedy run of `(?:\s+lit\s+(tok))*` pairs: returns the last captured token
and the tokens left over.  The literal is matched case-insensitively
(IGNORECASE); the capture keeps its original case. -/
def pairRun (lit : String) : List String → Option String × List String
  | l :: x :: rest =>
    if strLower l == lit then
      match pairRun lit rest with
      | (some c, rem) => (some c, rem)
      | (Option.none, rem) => (some x, rem)
    else (Option.none, l :: x :: rest)
  | ts => (Option.none, ts)

/-- Like `pairRun` but the captured token must be a `\w+` token (used by
`ThingStatusChangeTrigger` whose states are `\w+`). -/
def pairRunW (lit : String) : List String → Option String × List String
  | l :: x :: rest =>
    if strLower l == lit && isWordToken x then
      match pairRunW lit rest with
      | (some c, rem) => (some c, rem)
      | (Option.none, rem) => (some x, rem)
    else (Option.none, l :: x :: rest)
  | ts => (Option.none, ts)

/-- Embeds `ItemStateUpdateTrigger.__init__`: the `state` key is stored only when the
parameter is not `None`. -/
def ItemStateUpdateTrigger.mkTrigger (item_name : String) (state : Option String) : Descriptor :=
  { typeUID := "core.ItemStateUpdateTrigger",
    config := [("itemName", Value.str item_name)] ++
      (match state with
       | some s => [("state", Value.str s)]
       | Option.none => []) }

/-- Embeds `ItemStateUpdateTrigger.parse`: regex
`^(?:(?P<subItems>Member|Descendent)\s+of|Item)\s+(?P<itemName>\w+)\s+received\s+update(?:\s+(?P<state>'[^']+'|\S+))*$`;
an unresolved item raises `ValueError`; a `Member`/`Descendent` phrase expands
to one trigger per group member. -/
def ItemStateUpdateTrigger.parse (reg : Registry) (target : List String) :
    Except PyError (Option ParseResult) :=
  match itemHead target with
  | some (subItems, itemName, rest) =>
    match rest with
    | r0 :: r1 :: stateToks =>
      if strLower r0 == "received" && strLower r1 == "update" then
        let state := lastTokenCapture stateToks
        match reg.items itemName with
        | Option.none => throw (PyError.valueError ("Invalid item name: " ++ itemName))
        | some item =>
          match subItems with
          | Option.none => pure (some (ParseResult.one (ItemStateUpdateTrigger.mkTrigger itemName state)))
          | some si =>
            let groupMembers := if si == "Member" then item.getMembers else item.getAllMembers
            pure (some (ParseResult.many
              (groupMembers.map fun m => ItemStateUpdateTrigger.mkTrigger m.name state)))
      else pure Option.none
    | _ => pure Option.none
  | Option.none => pure Option.none

/-- Embeds `ItemStateChangeTrigger.__init__`: `state` is added to the configuration
before `previousState`, each only when not `None`. -/
def ItemStateChangeTrigger.mkTrigger (item_name : String)
    (previous_state state : Option String) : Descriptor :=
  { typeUID := "core.ItemStateChangeTrigger",
    config := [("itemName", Value.str item_name)] ++
      (match state with
       | some s => [("state", Value.str s)]
       | Option.none => []) ++
      (match previous_state with
       | some p => [("previousState", Value.str p)]
       | Option.none => []) }

/-- Embeds `ItemStateChangeTrigger.parse`: regex
`^(?:(?P<subItems>Member|Descendent)\s+of|Item)\s+(?P<itemName>\w+)\s+changed(?:\s+from\s+(?P<previousState>'[^']+'|\S+))*(?:\s+to\s+(?P<state>'[^']+'|\S+))*$`. -/
def ItemStateChangeTrigger.parse (reg : Registry) (target : List String) :
    Except PyError (Option ParseResult) :=
  match itemHead target with
  | some (subItems, itemName, rest) =>
    match rest with
    | r0 :: rest1 =>
      if strLower r0 == "changed" then
        match pairRun "from" rest1 with
        | (previousState, rem1) =>
          match pairRun "to" rem1 with
          | (state, rem2) =>
            if rem2.isEmpty then
              match reg.items itemName with
              | Option.none => throw (PyError.valueError ("Invalid item name: " ++ itemName))
              | some item =>
                match subItems with
                | Option.none =>
                  pure (some (ParseResult.one
                    (ItemStateChangeTrigger.mkTrigger itemName previousState state)))
                | some si =>
                  let groupMembers := if si == "Member" then item.getMembers else item.getAllMembers
                  pure (some (ParseResult.many
                    (groupMembers.map fun m =>
                      ItemStateChangeTrigger.mkTrigger m.name previousState state)))
            else pure Option.none
      else pure Option.none
    | [] => pure Option.none
  | Option.none => pure Option.none

/-- Embeds `ItemCommandTrigger.__init__`: the `command` key only when not `None`. -/
def ItemCommandTrigger.mkTrigger (item_name : String) (command : Option String) : Descriptor :=
  { typeUID := "core.ItemCommandTrigger",
    config := [("itemName", Value.str item_name)] ++
      (match command with
       | some c => [("command", Value.str c)]
       | Option.none => []) }

/-- Embeds `ItemCommandTrigger.parse`: regex
`^(?:(?P<subItems>Member|Descendent)\s+of|Item)\s+(?P<itemName>\w+)\s+received\s+command(?:\s+(?P<command>\w+))*$`;
each repeated command token is a full `\w+` token. -/
def ItemCommandTrigger.parse (reg : Registry) (target : List String) :
    Except PyError (Option ParseResult) :=
  match itemHead target with
  | some (subItems, itemName, rest) =>
    match rest with
    | r0 :: r1 :: cmdToks =>
      if strLower r0 == "received" && strLower r1 == "command" && cmdToks.all isWordToken then
        let command := lastTokenCapture cmdToks
        match reg.items itemName with
        | Option.none => throw (PyError.valueError ("Invalid item name: " ++ itemName))
        | some item =>
          match subItems with
          | Option.none => pure (some (ParseResult.one (ItemCommandTrigger.mkTrigger itemName command)))
          | some si =>
            let groupMembers := if si == "Member" then item.getMembers else item.getAllMembers
            pure (some (ParseResult.many
              (groupMembers.map fun m => ItemCommandTrigger.mkTrigger m.name command)))
      else pure Option.none
    | _ => pure Option.none
  | Option.none => pure Option.none

/-! ### Thing triggers -/

/-- Embeds `ThingStatusUpdateTrigger.__init__`. -/
def ThingStatusUpdateTrigger.mkTrigger (thing_uid : String) (status : Option String) : Descriptor :=
  { typeUID := "core.ThingStatusUpdateTrigger",
    config := [("thingUID", Value.str thing_uid)] ++
      (match status with
       | some s => [("status", Value.str s)]
       | Option.none => []) }

/-- Embeds `ThingStatusUpdateTrigger.parse`: regex
`^Thing\s+(?P<thingUID>\S+)\s+received\s+update(?:\s+(?P<status>\w+))*$`;
an unresolved thing UID raises `ValueError`. -/
def ThingStatusUpdateTrigger.parse (reg : Registry) : List String → Except PyError (Option ParseResult)
  | t0 :: t1 :: r0 :: r1 :: statusToks =>
    if strLower t0 == "thing" && strLower r0 == "received" && strLower r1 == "update"
        && statusToks.all isWordToken then
      if reg.things t1 then
        pure (some (ParseResult.one
          (ThingStatusUpdateTrigger.mkTrigger t1 (lastTokenCapture statusToks))))
      else throw (PyError.valueError ("Invalid thing UID: " ++ t1))
    else pure Option.none
  | _ => pure Option.none

/-- Embeds `ThingStatusChangeTrigger.__init__`: `previousStatus` is added before
`status`, each only when not `None`. -/
def ThingStatusChangeTrigger.mkTrigger (thing_uid : String)
    (previous_status status : Option String) : Descriptor :=
  { typeUID := "core.ThingStatusChangeTrigger",
    config := [("thingUID", Value.str thing_uid)] ++
      (match previous_status with
       | some p => [("previousStatus", Value.str p)]
       | Option.none => []) ++
      (match status with
       | some s => [("status", Value.str s)]
       | Option.none => []) }

/-- Embeds `ThingStatusChangeTrigger.parse`: regex
`^Thing\s+(?P<thingUID>\S+)\s+changed(?:\s+from\s+(?P<previousState>\w+))*(?:\s+to\s+(?P<state>\w+))*$`. -/
def ThingStatusChangeTrigger.parse (reg : Registry) : List String → Except PyError (Option ParseResult)
  | t0 :: t1 :: r0 :: rest =>
    if strLower t0 == "thing" && strLower r0 == "changed" then
      match pairRunW "from" rest with
      | (previousState, rem1) =>
        match pairRunW "to" rem1 with
        | (state, rem2) =>
          if rem2.isEmpty then
            if reg.things t1 then
              pure (some (ParseResult.one
                (ThingStatusChangeTrigger.mkTrigger t1 previousState state)))
            else throw (PyError.valueError ("Invalid thing UID: " ++ t1))
          else pure Option.none
    else pure Option.none
  | _ => pure Option.none

/-! ### ChannelEventTrigger -/

/-- Embeds `ChannelEventTrigger.__init__`. -/
def ChannelEventTrigger.mkTrigger (channel_uid : String) (event : Option String) : Descriptor :=
  { typeUID := "core.ChannelEventTrigger",
    config := [("channelUID", Value.str channel_uid)] ++
      (match event with
       | some e => [("event", Value.str e)]
       | Option.none => []) }

/-- The channel-UID token of
`\"*(?P<channelUID>\S+)\"*`: the greedy leading `\"*` consumes the leading
double quotes, then `\S+` captures the rest of the token (including any
trailing quotes, which the trailing `\"*` then matches zero times); when the
token is nothing but quotes, `\"*` gives one back so that `\S+` captures a
single quote. -/
def channelUIDofToken (t : String) : String :=
  let stripped := t.data.dropWhile fun c => c == Char.ofNat 34
  if stripped.isEmpty then String.mk [Char.ofNat 34] else String.mk stripped

/-- Embeds `ChannelEventTrigger.parse`: regex
`^Channel\s+\"*(?P<channelUID>\S+)\"*\s+triggered(?:\s+(?P<event>\w+))*$`;
an unresolved channel UID raises `ValueError`. -/
def ChannelEventTrigger.parse (reg : Registry) : List String → Except PyError (Option ParseResult)
  | t0 :: t1 :: t2 :: evToks =>
    if strLower t0 == "channel" && strLower t2 == "triggered" && evToks.all isWordToken then
      let uid := channelUIDofToken t1
      if reg.channels uid then
        pure (some (ParseResult.one (ChannelEventTrigger.mkTrigger uid (lastTokenCapture evToks))))
      else throw (PyError.valueError ("Invalid channel UID: " ++ uid))
    else pure Option.none
  | _ => pure Option.none

/-! ### ItemEventTrigger / ThingEventTrigger -/

/-- Python `None`-or-string as a configuration value. -/
def optStrValue : Option String → Value
  | some s => Value.str s
  | Option.none => Value.none

/-- Embeds `ItemEventTrigger.__init__` with no item name: `eventSource` is
`"smarthome/items/"`, and `eventTypes` is stored even when the value is `None`. -/
def ItemEventTrigger.mkTrigger (event_types : Option String) : Descriptor :=
  { typeUID := "core.GenericEventTrigger",
    config := [("eventTopic", Value.str "smarthome/items/*"),
               ("eventSource", Value.str "smarthome/items/"),
               ("eventTypes", optStrValue event_types)] }

/-- The `event_names` dict of `ItemEventTrigger.parse`. -/
def itemEventNames : List (String × String) :=
  [("added", "ItemAddedEvent"), ("removed", "ItemRemovedEvent"), ("updated", "ItemUpdatedEvent")]

/-- Embeds `ItemEventTrigger.parse`: regex `^Item\s+(?P<action>added|removed|updated)$`
(IGNORECASE), then a **case-sensitive** `event_names.get(action)` on the
captured token, so a non-lower-case action yields `None` event types. -/
def ItemEventTrigger.parse : List String → Option Descriptor
  | [t0, t1] =>
    if strLower t0 == "item"
        && (strLower t1 == "added" || strLower t1 == "removed" || strLower t1 == "updated") then
      some (ItemEventTrigger.mkTrigger (itemEventNames.lookup t1))
    else Option.none
  | _ => Option.none

/-- Embeds `ThingEventTrigger.__init__` with no thing UID. -/
def ThingEventTrigger.mkTrigger (event_types : Option String) : Descriptor :=
  { typeUID := "core.GenericEventTrigger",
    config := [("eventTopic", Value.str "smarthome/things/*"),
               ("eventSource", Value.str "smarthome/things/"),
               ("eventTypes", optStrValue event_types)] }

/-- The `event_names` dict of `ThingEventTrigger.parse`. -/
def thingEventNames : List (String × String) :=
  [("added", "ThingAddedEvent"), ("removed", "ThingRemovedEvent"), ("updated", "ThingUpdatedEvent")]

/-- Embeds `ThingEventTrigger.parse`: regex `^Thing\s+(?P<action>added|removed|updated)$`
(IGNORECASE) with the same case-sensitive dict lookup. -/
def ThingEventTrigger.parse : List String → Option Descriptor
  | [t0, t1] =>
    if strLower t0 == "thing"
        && (strLower t1 == "added" || strLower t1 == "removed" || strLower t1 == "updated") then
      some (ThingEventTrigger.mkTrigger (thingEventNames.lookup t1))
    else Option.none
  | _ => Option.none

/-! ### DirectoryEventTrigger

The java `WatchEvent.Kind` constants are modelled by their names. -/

/-- Comma-separated join. -/
def commaJoin : List String → String
  | [] => ""
  | [k] => k
  | k :: rest => k ++ ", " ++ commaJoin rest

/-- Python `str(event_kinds)` on the list of kinds. -/
def reprKinds (ks : List String) : String :=
  "[" ++ commaJoin ks ++ "]"

/-- Embeds `DirectoryEventTrigger.__init__`. -/
def DirectoryEventTrigger.mkTrigger (path : String) (event_kinds : List String)
    (watch_subdirectories : Bool) : Descriptor :=
  { typeUID := "jsr223.DirectoryEventTrigger",
    config := [("path", Value.str path),
               ("event_kinds", Value.str (reprKinds event_kinds)),
               ("watch_subdirectories", Value.bool watch_subdirectories)] }

/-- Strip a `(?:,\s*)*` run (fuelled recursion; the fuel bounds the number of
commas). -/
def stripCommaSpace : Nat → List Char → List Char
  | 0, cs => cs
  | _ + 1, [] => []
  | fuel + 1, c :: rest =>
    if c == ',' then stripCommaSpace fuel (rest.dropWhile Char.isWhitespace)
    else c :: rest

/-- Drop a leading `created|deleted|modified` (IGNORECASE). -/
def dropDirOption (cs : List Char) : Option (List Char) :=
  let lowered := cs.map Char.toLower
  if "created".data.isPrefixOf lowered then some (cs.drop 7)
  else if "deleted".data.isPrefixOf lowered then some (cs.drop 7)
  else if "modified".data.isPrefixOf lowered then some (cs.drop 8)
  else Option.none

/-- Match `((?:,\s*)*(?:created|deleted|modified))+` against the whole inner
text of the bracketed option list (fuelled recursion on the text length). -/
def dirOptsMatch : Nat → List Char → Bool
  | 0, _ => false
  | fuel + 1, cs =>
    match dropDirOption (stripCommaSpace (fuel + 1) cs) with
    | some rest => rest.isEmpty || dirOptsMatch fuel rest
    | Option.none => false

/-- Embeds `DirectoryEventTrigger.parse`: regex
`^(?P<dirOrSub>Directory|Subdirectory)\s+(?P<path>'.+'|\S+)\s+\[(?P<options>(?:(?:,\s*)*(?:created|deleted|modified))+)\]$`
(IGNORECASE); the captured options text is then split on *whitespace* and the
pieces are compared against the lower-case literals, so comma-attached or
non-lower-case options fall back to the default kind list. -/
def DirectoryEventTrigger.parse : List String → Option Descriptor
  | t0 :: t1 :: opt0 :: optRest =>
    if strLower t0 == "directory" || strLower t0 == "subdirectory" then
      let joined := joinTokens (opt0 :: optRest)
      if strStartsWith joined "[" && "]".data.isSuffixOf joined.data
          && dirOptsMatch (joined.data.length + 1) ((joined.data.drop 1).dropLast) then
        let options := pySplit (String.mk ((joined.data.drop 1).dropLast))
        let ks := (if options.contains "created" then ["ENTRY_CREATE"] else []) ++
                  (if options.contains "deleted" then ["ENTRY_DELETE"] else []) ++
                  (if options.contains "modified" then ["ENTRY_MODIFY"] else [])
        let event_kinds := if ks.isEmpty then ["ENTRY_CREATE", "ENTRY_DELETE", "ENTRY_MODIFY"] else ks
        some (DirectoryEventTrigger.mkTrigger t1 event_kinds (t0 == "Subdirectory"))
      else Option.none
    else Option.none
  | _ => Option.none

/-! ### The `when` orchestrator

```python
def parse(target):
    target = target.strip()
    firstWord = target.split()[0]          # IndexError on an empty phrase
    for triggerClass in triggerClasses:
        if firstWord.lower() in triggerClass.firstWord:
            trigger = triggerClass.parse(target)
            if trigger is not None:
                return trigger
    raise ValueError(u"Could not parse {} trigger: {}".format(firstWord, target))
```
`firstWord.lower() in triggerClass.firstWord` is Python `in`: substring
containment when the class attribute is a string, exact membership when it is
a list. -/

/-- A `firstWord` class attribute: a plain string or a list of strings. -/
inductive FirstWord where
  | str (s : String)
  | list (l : List String)

/-- Python `w in fw` on a `firstWord` attribute. -/
def fwMatch (w : String) : FirstWord → Bool
  | .str s => pyIn w s
  | .list l => l.contains w

/-- One registered grammar unit of the `when` decorator: its class name (used
only for the invocation trace), its `firstWord` attribute and its `parse`. -/
structure TriggerClass where
  name : String
  firstWord : FirstWord
  parse : Registry → List String → Except PyError (Option ParseResult)

/-- Lift a registry-free, single-result `parse` classmethod. -/
def liftP (f : List String → Option Descriptor) :
    Registry → List String → Except PyError (Option ParseResult) :=
  fun _ target => pure ((f target).map ParseResult.one)

/-- The `triggerClasses` list of `when`, in source order. -/
def triggerClasses : List TriggerClass :=
  [ { name := "StartupTrigger", firstWord := .str "system", parse := liftP StartupTrigger.parse },
    { name := "CronTrigger", firstWord := .str "time", parse := liftP CronTrigger.parse },
    { name := "DateTimeTrigger", firstWord := .str "time", parse := DateTimeTrigger.parse },
    { name := "ItemStateUpdateTrigger", firstWord := .list ["item", "member", "descendent"],
      parse := ItemStateUpdateTrigger.parse },
    { name := "ItemStateChangeTrigger", firstWord := .list ["item", "member", "descendent"],
      parse := ItemStateChangeTrigger.parse },
    { name := "ChannelEventTrigger", firstWord := .str "channel", parse := ChannelEventTrigger.parse },
    { name := "ItemEventTrigger", firstWord := .str "item", parse := liftP ItemEventTrigger.parse },
    { name := "ItemCommandTrigger", firstWord := .list ["item", "member", "descendent"],
      parse := ItemCommandTrigger.parse },
    { name := "ThingStatusUpdateTrigger", firstWord := .str "thing", parse := ThingStatusUpdateTrigger.parse },
    { name := "ThingStatusChangeTrigger", firstWord := .str "thing", parse := ThingStatusChangeTrigger.parse },
    { name := "ThingEventTrigger", firstWord := .str "thing", parse := liftP ThingEventTrigger.parse },
    { name := "DirectoryEventTrigger", firstWord := .list ["directory", "subdirectory"],
      parse := liftP DirectoryEventTrigger.parse } ]

/-- The candidate loop of `when.parse`, additionally returning the names of
the classes whose `parse` classmethod was actually invoked (for the
no-recognizer-invoked claims). -/
def tryClasses (reg : Registry) (target : List String) (firstWord : String) :
    List TriggerClass → Except PyError ParseResult × List String
  | [] =>
    (Except.error (PyError.valueError
      ("Could not parse " ++ firstWord ++ " trigger: " ++ joinTokens target)), [])
  | c :: cs =>
    if fwMatch (strLower firstWord) c.firstWord then
      match c.parse reg target with
      | Except.error e => (Except.error e, [c.name])
      | Except.ok (some r) => (Except.ok r, [c.name])
      | Except.ok Option.none =>
        match tryClasses reg target firstWord cs with
        | (res, tr) => (res, c.name :: tr)
    else tryClasses reg target firstWord cs

/-- Embeds `when.parse` with the invocation trace.  An empty phrase hits
`target.split()[0]`, which raises `IndexError`. -/
def whenParseTraced (reg : Registry) (target : List String) :
    Except PyError ParseResult × List String :=
  match target with
  | [] => (Except.error PyError.indexError, [])
  | firstWord :: _ => tryClasses reg target firstWord triggerClasses

/-- Embeds `when.parse` (result only). -/
def whenParse (reg : Registry) (target : List String) : Except PyError ParseResult :=
  (whenParseTraced reg target).1

/-- A rule callback: Python function objects get mutable `triggers` /
`conditions` list attributes attached (absent until first use); list entries
are trigger/condition objects or the `None` sentinel. -/
structure Callback where
  triggers : Option (List (Option Descriptor))
  conditions : Option (List (Option Descriptor))
deriving DecidableEq, Repr

/-- Applying the decorator returned by `when(target)` to a callback.  In the
source, the `try`/`except ValueError` of `when` wraps only the *definition and
return* of `whenFunction`; `parse` runs later, when the decorator is applied,
so a parse failure propagates out of the decoration and the
`except ValueError` handler (log a warning, return `bad_trigger` which appends
the `None` sentinel) is unreachable. -/
def whenDecorate (reg : Registry) (target : List String) (function : Callback) :
    Except PyError Callback := do
  let triggerClasses ← whenParse reg target
  let ts := function.triggers.getD []
  match triggerClasses with
  | ParseResult.many ds => pure { function with triggers := some (ts ++ ds.map some) }
  | ParseResult.one d => pure { function with triggers := some (ts ++ [some d]) }

/-! ### ItemStateCondition (conditions.py) -/

/-- Embeds `ItemStateCondition.__init__`: raises when any configuration value is
Python `None`. -/
def ItemStateCondition.mkCondition (item_name : String) (operator state : Option String) :
    Except PyError Descriptor :=
  match operator, state with
  | some o, some s =>
    Except.ok { typeUID := "core.ItemStateCondition",
                config := [("itemName", Value.str item_name), ("operator", Value.str o),
                           ("state", Value.str s)] }
  | _, _ => Except.error (PyError.valueError "Paramater invalid in call to ItemStateConditon")

/-- The ordered operator alternatives of the `ItemStateCondition.parse` regex
`(?P<eq>=|==|eq|equals|is)|(?P<neq>!=|not\s+equals|is\s+not)|(?P<lt><|lt|is\s+less\s+than)|(?P<lte><=|lte|is\s+less\s+than\s+or\s+equal)|(?P<gt>>|gt|is\s+greater\s+than)|(?P<gte>>=|gte|is\s+greater\s+than\s+or\s+equal)`
as (group name, token sequence) pairs, in alternation order. -/
def operatorAlts : List (String × List String) :=
  [("eq", ["="]), ("eq", ["=="]), ("eq", ["eq"]), ("eq", ["equals"]), ("eq", ["is"]),
   ("neq", ["!="]), ("neq", ["not", "equals"]), ("neq", ["is", "not"]),
   ("lt", ["<"]), ("lt", ["lt"]), ("lt", ["is", "less", "than"]),
   ("lte", ["<="]), ("lte", ["lte"]), ("lte", ["is", "less", "than", "or", "equal"]),
   ("gt", [">"]), ("gt", ["gt"]), ("gt", ["is", "greater", "than"]),
   ("gte", [">="]), ("gte", ["gte"]), ("gte", ["is", "greater", "than", "or", "equal"])]

/-- Case-insensitive literal token-sequence prefix; returns the remaining
tokens. -/
def ciLiteralRun : List String → List String → Option (List String)
  | [], rest => some rest
  | a :: as, t :: ts => if strLower t == a then ciLiteralRun as ts else Option.none
  | _ :: _, [] => Option.none

/-- First operator alternative that matches and leaves exactly the one state
token the tail `\s+(?P<state>'[^']+'|\S+)*$` requires (the repetition has no
internal `\s+`, so on a stripped phrase the state is a single token; an
alternative whose continuation fails backtracks to the next alternative). -/
def findOperator : List (String × List String) → List String → Option (String × String)
  | [], _ => Option.none
  | (g, pat) :: rest, toks =>
    match ciLiteralRun pat toks with
    | some [st] => some (g, st)
    | _ => findOperator rest toks

/-- The `operators` normalization table of `ItemStateCondition.parse`:
`next((op[1] for op in operators if match.group(op[0]) is not None), None)`. -/
def opSymbol : String → Option String
  | "eq" => some "="
  | "neq" => some "!="
  | "lt" => some "<"
  | "lte" => some "<="
  | "gt" => some ">"
  | "gte" => some ">="
  | _ => Option.none

/-- Embeds `ItemStateCondition.parse`: regex
`^Item\s+(?P<itemName>\w+)\s+(<operators>)\s+(?P<state>'[^']+'|\S+)*$`
(IGNORECASE); an unresolved item raises `ValueError`. -/
def ItemStateCondition.parse (reg : Registry) : List String → Except PyError (Option Descriptor)
  | t0 :: t1 :: rest =>
    if strLower t0 == "item" && isWordToken t1 then
      match findOperator operatorAlts rest with
      | some (g, st) =>
        match reg.items t1 with
        | Option.none => throw (PyError.valueError ("Invalid item name: " ++ t1))
        | some _ =>
          match ItemStateCondition.mkCondition t1 (opSymbol g) (some st) with
          | Except.ok d => pure (some d)
          | Except.error e => throw e
      | Option.none => pure Option.none
    else pure Option.none
  | _ => pure Option.none

/-! ### EphemerisCondition -/

/-- A single apostrophe character. -/
def aposChar : Char := Char.ofNat 39

/-- The string `it's` (built without an apostrophe literal). -/
def itsWord : String := "it" ++ String.mk [aposChar] ++ "s"

/-- A token matching `it'*s` (IGNORECASE): `it`, any number of apostrophes,
then `s`. -/
def itsToken (t : String) : Bool :=
  match (strLower t).data with
  | 'i' :: 't' :: rest =>
    !rest.isEmpty && rest.getLast? == some 's' && rest.dropLast.all (fun c => c == aposChar)
  | _ => false

/-- A token that `-?\d+` consumes entirely (the regex continues with `\s+`). -/
def signedDigits (t : String) : Bool :=
  match t.data with
  | '-' :: rest => !rest.isEmpty && rest.all Char.isDigit
  | cs => !cs.isEmpty && cs.all Char.isDigit

/-- The set of day-part candidates of the `EphemerisCondition.parse` regex
`^((?P<today>Today\s+is|it'*s)|(?P<plus1>Tomorrow\s+is|Today\s+plus\s+1)|(?P<minus1>Yesterday\s+was|Today\s+minus\s+1)|(Today\s+(?P<plusminus>plus|minus|offset)\s+(?P<offset>-?\d+)\s+is))\s+...`
in alternation order; each candidate carries the offset value the source
computes for that group (`Today plus 1` yields the int 1, but a matched
`offset` group is kept as the captured *string*) and the remaining tokens.
The alternation backtracks: a candidate whose predicate part fails falls
through to the next one (e.g. `Today plus 1 is weekend` fails as `plus1` and
then matches the `offset` alternative, with the string offset `"1"`). -/
def dayCandidates (toks : List String) : List (Value × List String) :=
  (match toks with
   | t0 :: t1 :: rest =>
     if strLower t0 == "today" && strLower t1 == "is" then [(Value.int 0, rest)] else []
   | _ => []) ++
  (match toks with
   | t0 :: rest => if itsToken t0 then [(Value.int 0, rest)] else []
   | _ => []) ++
  (match toks with
   | t0 :: t1 :: rest =>
     if strLower t0 == "tomorrow" && strLower t1 == "is" then [(Value.int 1, rest)] else []
   | _ => []) ++
  (match toks with
   | t0 :: t1 :: t2 :: rest =>
     if strLower t0 == "today" && strLower t1 == "plus" && t2 == "1" then
       [(Value.int 1, rest)]
     else []
   | _ => []) ++
  (match toks with
   | t0 :: t1 :: rest =>
     if strLower t0 == "yesterday" && strLower t1 == "was" then [(Value.int (-1), rest)] else []
   | _ => []) ++
  (match toks with
   | t0 :: t1 :: t2 :: rest =>
     if strLower t0 == "today" && strLower t1 == "minus" && t2 == "1" then
       [(Value.int (-1), rest)]
     else []
   | _ => []) ++
  (match toks with
   | t0 :: t1 :: t2 :: t3 :: rest =>
     if strLower t0 == "today"
         && (strLower t1 == "plus" || strLower t1 == "minus" || strLower t1 == "offset")
         && signedDigits t2 && strLower t3 == "is" then
       [(Value.str t2, rest)]
     else []
   | _ => [])

/-- The day-type position `$`-anchored tail: exactly one token
(`holiday|weekday|weekend|\S+` all capture the whole token). -/
def lastOne : List String → Option String
  | [t] => some t
  | _ => Option.none

/-- Tail `(a\s+)?(daytype)$` with the regex preference for consuming the optional
literal first and backtracking when the rest fails. -/
def afterIn : List String → Option String
  | t :: rest =>
    if strLower t == "a" then
      match lastOne rest with
      | some d => some d
      | Option.none => lastOne (t :: rest)
    else lastOne (t :: rest)
  | [] => Option.none

/-- Tail `(in\s+)?(a\s+)?(daytype)$`. -/
def afterNot : List String → Option String
  | t :: rest =>
    if strLower t == "in" then
      match afterIn rest with
      | some d => some d
      | Option.none => afterIn (t :: rest)
    else afterIn (t :: rest)
  | [] => Option.none

/-- The predicate part `(?P<not>not\s+)?(in\s+)?(a\s+)?(?P<daytype>holiday|weekday|weekend|\S+)$`:
returns the `not` flag and the captured day-type token (original case). -/
def predPart : List String → Option (Bool × String)
  | t :: rest =>
    if strLower t == "not" then
      match afterNot rest with
      | some d => some (true, d)
      | Option.none => (afterNot (t :: rest)).map fun d => (false, d)
    else (afterNot (t :: rest)).map fun d => (false, d)
  | [] => Option.none

/-- First day-part candidate whose predicate part succeeds. -/
def firstCandidate : List (Value × List String) → Option (Value × Bool × String)
  | [] => Option.none
  | (off, rem) :: rest =>
    match predPart rem with
    | some (nf, d) => some (off, nf, d)
    | Option.none => firstCandidate rest

/-- The `typeuid` dict of `EphemerisCondition.__init__` (the fallback UID
`epemeris.DaysetCondition` keeps the source's typo). -/
def ephemerisTypeUID : List (String × String) :=
  [("holiday", "ephemeris.HolidayCondition"),
   ("notholiday", "ephemeris.NotHolidayCondition"),
   ("weekend", "ephemeris.WeekendCondition"),
   ("weekday", "ephemeris.WeekdayCondition")]

/-- Embeds `EphemerisCondition.__init__`: known day sets map to a dedicated type UID
with only the offset; unknown ones fall back to the dayset condition with the
`dayset` key added after `offset`. -/
def EphemerisCondition.mkCondition (dayset : String) (offset : Value) : Descriptor :=
  match ephemerisTypeUID.lookup dayset with
  | some t => { typeUID := t, config := [("offset", offset)] }
  | Option.none =>
    { typeUID := "epemeris.DaysetCondition",
      config := [("offset", offset), ("dayset", Value.str dayset)] }

/-- Embeds `EphemerisCondition.parse`.  When the `not` group matched, the captured
day-type token is compared **case-sensitively** against the three known
literals; any other token raises
`ValueError(u"Unable to negate custom daytype: {}", match.group('daytype'))` —
note the source passes the format string and the argument as two separate
`ValueError` arguments, so `.format` is never applied; the message is modelled
by the raw format string.  (The `daytype is None` and `Offset is not
specified` raises of the source are unreachable: a successful match always
has a day-type capture and one of the four offset groups.) -/
def EphemerisCondition.parse (target : List String) : Except PyError (Option Descriptor) :=
  match firstCandidate (dayCandidates target) with
  | some (offset, nf, daytype) =>
    if nf then
      if daytype == "holiday" then
        pure (some (EphemerisCondition.mkCondition "notholiday" offset))
      else if daytype == "weekday" then
        pure (some (EphemerisCondition.mkCondition "weekend" offset))
      else if daytype == "weekend" then
        pure (some (EphemerisCondition.mkCondition "weekday" offset))
      else
        throw (PyError.valueError "Unable to negate custom daytype: \x7b\x7d")
    else
      pure (some (EphemerisCondition.mkCondition daytype offset))
  | Option.none => pure Option.none

/-! ### TimeOfDayCondition

The recognizer regex is applied to the raw phrase, so this grammar is modelled
character-wise on the re-joined token text:
`^Time\s+(?P<startTime>R)(?:\s*-\s*|\s+to\s+)(?P<endTime>R)$` with
`R = (([01]?\d|2[0-3]):[0-5]\d)|((0?[1-9]|1[0-2]):[0-5]\d(:[0-5]\d)?\s?(AM|PM))`
(IGNORECASE).  Alternations and optional pieces backtrack, so each piece
produces its candidate list in regex preference order and the first full
match wins. -/

/-- Embeds `TimeOfDayCondition.__init__` (its `None`-check raise is unreachable from
`parse`: both groups are mandatory in a successful match). -/
def TimeOfDayCondition.mkCondition (startTime endTime : String) : Descriptor :=
  { typeUID := "core.TimeOfDayCondition",
    config := [("startTime", Value.str startTime), ("endTime", Value.str endTime)] }

/-- Is `c` in the inclusive character range `lo..hi`? -/
def charBetween (lo hi c : Char) : Bool := lo.toNat ≤ c.toNat && c.toNat ≤ hi.toNat

/-- Piece `[0-5]\d` (exactly two characters). -/
def minute2 : List Char → Option (List Char × List Char)
  | a :: b :: rest =>
    if charBetween '0' '5' a && b.isDigit then some ([a, b], rest) else Option.none
  | _ => Option.none

/-- Candidates of `([01]?\d|2[0-3])`, in preference order. -/
def hour24Cands : List Char → List (List Char × List Char)
  | a :: b :: rest =>
    (if (a == '0' || a == '1') && b.isDigit then [([a, b], rest)] else []) ++
    (if a.isDigit then [([a], b :: rest)] else []) ++
    (if a == '2' && charBetween '0' '3' b then [([a, b], rest)] else [])
  | [a] => if a.isDigit then [([a], [])] else []
  | [] => []

/-- Candidates of `([01]?\d|2[0-3]):[0-5]\d`. -/
def time24Cands (cs : List Char) : List (List Char × List Char) :=
  ((hour24Cands cs).map fun (h, rest) =>
    match rest with
    | ':' :: rest2 =>
      match minute2 rest2 with
      | some (m, rest3) => [(h ++ ':' :: m, rest3)]
      | Option.none => []
    | _ => []).flatten

/-- Candidates of `(0?[1-9]|1[0-2])`, in preference order. -/
def hour12Cands : List Char → List (List Char × List Char)
  | a :: b :: rest =>
    (if a == '0' && charBetween '1' '9' b then [([a, b], rest)] else []) ++
    (if charBetween '1' '9' a then [([a], b :: rest)] else []) ++
    (if a == '1' && charBetween '0' '2' b then [([a, b], rest)] else [])
  | [a] => if charBetween '1' '9' a then [([a], [])] else []
  | [] => []

/-- Piece `(AM|PM)` (IGNORECASE). -/
def ampm : List Char → Option (List Char × List Char)
  | a :: b :: rest =>
    if (a.toLower == 'a' || a.toLower == 'p') && b.toLower == 'm' then
      some ([a, b], rest)
    else Option.none
  | _ => Option.none

/-- Candidates of the 12-hour tail `(:[0-5]\d)?\s?(AM|PM)` (seconds preferred,
then the optional single whitespace). -/
def time12Tail (cs : List Char) : List (List Char × List Char) :=
  let secCands : List (List Char × List Char) :=
    (match cs with
     | ':' :: rest =>
       match minute2 rest with
       | some (s, rest2) => [(':' :: s, rest2)]
       | Option.none => []
     | _ => []) ++ [([], cs)]
  (secCands.map fun (sec, rest) =>
    let wsCands : List (List Char × List Char) :=
      (match rest with
       | c :: rest2 => if c.isWhitespace then [([c], rest2)] else []
       | [] => []) ++ [([], rest)]
    (wsCands.map fun (w, rest3) =>
      match ampm rest3 with
      | some (ap, rest4) => [(sec ++ w ++ ap, rest4)]
      | Option.none => []).flatten).flatten

/-- Candidates of `(0?[1-9]|1[0-2]):[0-5]\d(:[0-5]\d)?\s?(AM|PM)`. -/
def time12Cands (cs : List Char) : List (List Char × List Char) :=
  ((hour12Cands cs).map fun (h, rest) =>
    match rest with
    | ':' :: rest2 =>
      match minute2 rest2 with
      | some (m, rest3) =>
        (time12Tail rest3).map fun (t, r) => (h ++ ':' :: m ++ t, r)
      | Option.none => []
    | _ => []).flatten

/-- Candidates of the full time alternation (24-hour alternative first). -/
def timeCands (cs : List Char) : List (List Char × List Char) :=
  time24Cands cs ++ time12Cands cs

/-- All ways `\s*` can split a leading whitespace run (greedy first). -/
def wsSplits (cs : List Char) : List (List Char) :=
  let run := (cs.takeWhile Char.isWhitespace).length
  (List.range (run + 1)).reverse.map fun i => cs.drop i

/-- All ways `\s+` can split a leading whitespace run (greedy first, at least
one character). -/
def wsSplits1 (cs : List Char) : List (List Char) :=
  let run := (cs.takeWhile Char.isWhitespace).length
  (List.range run).map fun i => cs.drop (run - i)

/-- Remainders after the separator alternative `\s*-\s*`. -/
def dashSeps (cs : List Char) : List (List Char) :=
  ((wsSplits cs).map fun c1 =>
    match c1 with
    | '-' :: rest => wsSplits rest
    | _ => []).flatten

/-- Remainders after the separator alternative `\s+to\s+` (IGNORECASE). -/
def toSeps (cs : List Char) : List (List Char) :=
  ((wsSplits1 cs).map fun c1 =>
    match c1 with
    | a :: b :: rest =>
      if a.toLower == 't' && b.toLower == 'o' then wsSplits1 rest else []
    | _ => []).flatten

/-- Remainders after `(?:\s*-\s*|\s+to\s+)`. -/
def sepCands (cs : List Char) : List (List Char) := dashSeps cs ++ toSeps cs

/-- Case-insensitive literal character prefix. -/
def dropCILiteral : List Char → List Char → Option (List Char)
  | [], rest => some rest
  | l :: ls, c :: rest => if c.toLower == l then dropCILiteral ls rest else Option.none
  | _ :: _, [] => Option.none

/-- The full `TimeOfDayCondition` recognizer on the raw phrase text. -/
def timeOfDayMatch (s : String) : Option Descriptor :=
  match dropCILiteral "time".data s.data with
  | some rest0 =>
    match wsSplits1 rest0 with
    | [] => Option.none
    | rest1 :: _ =>
      (((timeCands rest1).map fun (st, r1) =>
        ((sepCands r1).map fun r2 =>
          (timeCands r2).filterMap fun (en, r3) =>
            if r3.isEmpty then
              some (TimeOfDayCondition.mkCondition (String.mk st) (String.mk en))
            else Option.none).flatten).flatten).head?
  | Option.none => Option.none

/-- Embeds `TimeOfDayCondition.parse` (regex applied to the phrase text). -/
def TimeOfDayCondition.parse (target : List String) : Option Descriptor :=
  timeOfDayMatch (joinTokens target)

example : TimeOfDayCondition.parse ["Time", "9:00", "to", "14:00"]
    = some (TimeOfDayCondition.mkCondition "9:00" "14:00") := by decide
example : TimeOfDayCondition.parse ["Time", "8:30AM", "-", "1:15:30", "PM"]
    = some (TimeOfDayCondition.mkCondition "8:30AM" "1:15:30 PM") := by decide
example : TimeOfDayCondition.parse ["Time", "25:00", "to", "14:00"] = Option.none := by decide

/-! ### The `onlyif` orchestrator -/

/-- One registered condition grammar of `onlyif`. -/
structure ConditionClass where
  name : String
  firstWord : FirstWord
  parse : Registry → List String → Except PyError (Option Descriptor)

/-- The `conditionClasses` list of `onlyif`, in source order. -/
def conditionClasses : List ConditionClass :=
  [ { name := "ItemStateCondition", firstWord := .str "item", parse := ItemStateCondition.parse },
    { name := "EphemerisCondition",
      firstWord := .list ["today", "tomorrow", "yesterday", itsWord],
      parse := fun _ t => EphemerisCondition.parse t },
    { name := "TimeOfDayCondition", firstWord := .str "time",
      parse := fun _ t => pure (TimeOfDayCondition.parse t) } ]

/-- The candidate loop of `onlyif.parse`, with the invocation trace. -/
def tryCondClasses (reg : Registry) (target : List String) (firstWord : String) :
    List ConditionClass → Except PyError Descriptor × List String
  | [] =>
    (Except.error (PyError.valueError
      ("Could not parse " ++ firstWord ++ " condition: " ++ joinTokens target)), [])
  | c :: cs =>
    if fwMatch (strLower firstWord) c.firstWord then
      match c.parse reg target with
      | Except.error e => (Except.error e, [c.name])
      | Except.ok (some d) => (Except.ok d, [c.name])
      | Except.ok Option.none =>
        match tryCondClasses reg target firstWord cs with
        | (res, tr) => (res, c.name :: tr)
    else tryCondClasses reg target firstWord cs

/-- Embeds `onlyif.parse` with the invocation trace.  Unlike `when.parse`, it guards
against the empty phrase first: `if len(target) <= 0: raise ValueError(u"expression is length 0")`. -/
def onlyifParseTraced (reg : Registry) (target : List String) :
    Except PyError Descriptor × List String :=
  match target with
  | [] => (Except.error (PyError.valueError "expression is length 0"), [])
  | firstWord :: _ => tryCondClasses reg target firstWord conditionClasses

/-- Embeds `onlyif.parse` (result only). -/
def onlyifParse (reg : Registry) (target : List String) : Except PyError Descriptor :=
  (onlyifParseTraced reg target).1

/-- Applying the decorator returned by `onlyif(target)` to a callback; the
`try`/`except` of `onlyif` has the same shape as in `when`, so a parse failure
propagates out of the decoration and the `bad_condition` handler is
unreachable. -/
def onlyifDecorate (reg : Registry) (target : List String) (function : Callback) :
    Except PyError Callback := do
  let condition ← onlyifParse reg target
  let cs := function.conditions.getD []
  pure { function with conditions := some (cs ++ [some condition]) }

/-! ### Concrete registries used by the closed theorems -/

/-- A registry that resolves nothing. -/
def emptyReg : Registry :=
  { items := fun _ => Option.none, things := fun _ => false, channels := fun _ => false }

/-- A registry with one plain item `Kitchen_Light`. -/
def kitchenReg : Registry :=
  { items := fun n => if n == "Kitchen_Light" then some (Item.mk "Kitchen_Light" []) else Option.none,
    things := fun _ => false, channels := fun _ => false }

/-- A registry with the group `gTest` whose immediate members are the leaf
items `A`, `B`, `C`. -/
def groupReg : Registry :=
  { items := fun n =>
      if n == "gTest" then
        some (Item.mk "gTest" [Item.mk "A" [], Item.mk "B" [], Item.mk "C" []])
      else Option.none,
    things := fun _ => false, channels := fun _ => false }

example : whenParse emptyReg ["Item", "ADDED"]
    = Except.ok (ParseResult.one (ItemEventTrigger.mkTrigger Option.none)) := by decide
example : whenParse emptyReg ["Item", "added"]
    = Except.ok (ParseResult.one (ItemEventTrigger.mkTrigger (some "ItemAddedEvent"))) := by decide
example : whenParseTraced emptyReg ["tim", "0", "0", "*", "*", "?"]
    = (Except.ok (ParseResult.one (CronTrigger.mkTrigger "tim 0 0 * * ?")), ["CronTrigger"]) := by decide
example : whenParse emptyReg ["Time", "is", "MIDNIGHT"]
    = Except.ok (ParseResult.one (CronTrigger.mkTrigger "0 0 12 * * ?")) := by decide
example : whenParse kitchenReg ["Time", "is", "Kitchen_Light"]
    = Except.ok (ParseResult.one (DateTimeTrigger.mkTrigger "Kitchen_Light" (some false))) := by decide
example : onlyifParse emptyReg ["Today", "is", "not", "a", "holiday"]
    = Except.ok (EphemerisCondition.mkCondition "notholiday" (Value.int 0)) := by decide
example : whenParseTraced emptyReg [] = (Except.error PyError.indexError, []) := by decide
example : onlyifParse emptyReg [] = Except.error (PyError.valueError "expression is length 0") := by decide
example : whenParseTraced emptyReg ["Item", "Missing", "changed"]
    = (Except.error (PyError.valueError "Invalid item name: Missing"),
       ["ItemStateUpdateTrigger", "ItemStateChangeTrigger"]) := by decide
example : whenParse groupReg ["Member", "of", "gTest", "changed", "from", "ON", "to", "OFF"]
    = Except.ok (ParseResult.many
        [ItemStateChangeTrigger.mkTrigger "A" (some "ON") (some "OFF"),
         ItemStateChangeTrigger.mkTrigger "B" (some "ON") (some "OFF"),
         ItemStateChangeTrigger.mkTrigger "C" (some "ON") (some "OFF")]) := by decide
example : whenParse emptyReg ["Time", "0", "0", "*", "*", "?"]
    = Except.ok (ParseResult.one (CronTrigger.mkTrigger "Time 0 0 * * ?")) := by decide
example : whenDecorate emptyReg ["Banana", "split"] { triggers := Option.none, conditions := Option.none }
    = Except.error (PyError.valueError "Could not parse Banana trigger: Banana split") := by decide

/-! ### Helper predicates for the theorems -/

/-- A token as produced by whitespace splitting: non-empty and free of
whitespace. -/
def isToken (s : String) : Bool := s ≠ "" && s.data.all fun c => !c.isWhitespace

/-- All discriminator words registered by the trigger grammar units (the
string-valued `firstWord` attributes and the members of the list-valued ones). -/
def registeredDiscriminators : List String :=
  (triggerClasses.map fun c =>
    match c.firstWord with
    | .str s => [s]
    | .list l => l).flatten

/-- The first word matches no trigger class under the code's `in` test. -/
def noTriggerDispatch (w : String) : Bool :=
  triggerClasses.all fun c => !(fwMatch (strLower w) c.firstWord)

/-- The first word matches no condition class under the code's `in` test. -/
def noConditionDispatch (w : String) : Bool :=
  conditionClasses.all fun c => !(fwMatch (strLower w) c.firstWord)

/-- No configuration value is Python `None`. -/
def noNoneValues (d : Descriptor) : Bool :=
  d.config.all fun kv => !(kv.2 == Value.none)

/-- The configuration keys of a descriptor, in insertion order. -/
def keys (d : Descriptor) : List String := d.config.map Prod.fst

/-- A callback object before any decoration. -/
def freshCallback : Callback := { triggers := Option.none, conditions := Option.none }

/-! ### The claims -/

/-- C3: the claim says parsing is case-insensitive over the whole phrase, with
equivalent outcomes for phrases differing only in letter case.  The regexes
are compiled with IGNORECASE, but the post-match comparisons are
case-sensitive, so `Time is MIDNIGHT` matches the named-instant branch and
then normalizes to the **noon** schedule literal instead of the midnight one,
and `Today is not a HOLIDAY` raises the custom-negation error instead of
yielding the not-holiday condition that `Today is not a holiday` yields. -/
theorem C3_case_sensitivity_bug :
    whenParse emptyReg ["Time", "is", "midnight"]
      = Except.ok (ParseResult.one
          { typeUID := "timer.GenericCronTrigger",
            config := [("cronExpression", Value.str "0 0 0 * * ?")] })
    ∧ whenParse emptyReg ["Time", "is", "MIDNIGHT"]
      = Except.ok (ParseResult.one
          { typeUID := "timer.GenericCronTrigger",
            config := [("cronExpression", Value.str "0 0 12 * * ?")] })
    ∧ onlyifParse emptyReg ["Today", "is", "not", "a", "holiday"]
      = Except.ok { typeUID := "ephemeris.NotHolidayCondition",
                    config := [("offset", Value.int 0)] }
    ∧ onlyifParse emptyReg ["Today", "is", "not", "a", "HOLIDAY"]
      = Except.error (PyError.valueError "Unable to negate custom daytype: \x7b\x7d") := by
  refine ⟨by decide, by decide, by decide, by decide⟩

/-- C6: the cron grammar validates the candidate expression before accepting:
`Time cron 0 0 * * * ?` succeeds with that expression; `Time cron not-a-cron`
yields no match from the grammar (the validator rejects it) and the phrase
fails; `Time is midnight` and `Time is noon` normalize to the fixed schedule
literals. -/
theorem C6_cron_validation :
    whenParse emptyReg ["Time", "cron", "0", "0", "*", "*", "*", "?"]
      = Except.ok (ParseResult.one
          { typeUID := "timer.GenericCronTrigger",
            config := [("cronExpression", Value.str "0 0 * * * ?")] })
    ∧ CronTrigger.parse ["Time", "cron", "not-a-cron"] = Option.none
    ∧ whenParse emptyReg ["Time", "cron", "not-a-cron"]
      = Except.error (PyError.valueError
          "Could not parse Time trigger: Time cron not-a-cron")
    ∧ whenParse emptyReg ["Time", "is", "midnight"]
      = Except.ok (ParseResult.one
          { typeUID := "timer.GenericCronTrigger",
            config := [("cronExpression", Value.str "0 0 0 * * ?")] })
    ∧ whenParse emptyReg ["Time", "is", "noon"]
      = Except.ok (ParseResult.one
          { typeUID := "timer.GenericCronTrigger",
            config := [("cronExpression", Value.str "0 0 12 * * ?")] }) := by
  refine ⟨by decide, by decide, by decide, by decide, by decide⟩

/-- C8: the claim says an empty or whitespace-only phrase is trimmed and fails
with the structured empty-phrase failure, never an uncaught low-level
exception.  `onlyif.parse` does guard (`expression is length 0`), but
`when.parse` runs `target.split()[0]` on the stripped phrase, which raises an
uncaught `IndexError` on the empty token list. -/
theorem C8_empty_phrase (reg : Registry) :
    whenParseTraced reg [] = (Except.error PyError.indexError, [])
    ∧ onlyifParseTraced reg []
      = (Except.error (PyError.valueError "expression is length 0"), []) :=
  ⟨rfl, rfl⟩

/-- Witness for C8 at the concrete empty registry. -/
theorem C8_empty_phrase_witness :
    whenParseTraced emptyReg [] = (Except.error PyError.indexError, [])
    ∧ onlyifParseTraced emptyReg []
      = (Except.error (PyError.valueError "expression is length 0"), []) :=
  C8_empty_phrase emptyReg

/-- C10: when the cron regex does not match at all, `CronTrigger.parse` falls
back to validating the entire raw phrase; whenever the whole phrase passes the
syntactic validator, the resulting trigger's `cronExpression` is the entire
phrase text — e.g. the dispatched phrase `Time 0 0 * * ?` (six fields, the
word `Time` passing the three-word-characters alternative) parses to a cron
trigger whose expression is the whole phrase. -/
theorem C10_cron_fallback :
    (∀ target : List String,
      CronTrigger.matchTarget target = Option.none →
      truthy (isValidExpression (joinTokens target)) = true →
      CronTrigger.parse target = some (CronTrigger.mkTrigger (joinTokens target)))
    ∧ whenParse emptyReg ["Time", "0", "0", "*", "*", "?"]
      = Except.ok (ParseResult.one (CronTrigger.mkTrigger "Time 0 0 * * ?")) := by
  constructor
  · intro target h1 h2
    simp [CronTrigger.parse, h1, h2]
  · decide

/-- Witness for C10: the general fallback instantiated at a concrete six-field
phrase whose first word is not a `Time` keyword. -/
theorem C10_cron_fallback_witness :
    CronTrigger.parse ["5", "5", "5", "5", "5", "5"]
      = some (CronTrigger.mkTrigger "5 5 5 5 5 5") :=
  C10_cron_fallback.1 ["5", "5", "5", "5", "5", "5"] (by decide) (by decide)

/-- C1: the claim says that when parsing fails, applying the decorator logs a
warning once, appends a single `None` sentinel to the callback's side list and
returns the callback unchanged.  In the source the `try`/`except ValueError`
of `when`/`onlyif` wraps only the creation of the inner decorator function;
`parse` runs later, when the decorator is applied to the callback, so the
`ValueError` escapes the decoration uncaught, nothing is logged, no sentinel is
appended and no decorated callback is returned: decorating with a good phrase
succeeds (side list of length 1), but chaining the malformed second phrase
aborts with the raw `ValueError` instead of producing a length-3 side list
with an invalid sentinel. -/
theorem C1_decorator_error_escapes :
    whenDecorate kitchenReg ["Item", "Kitchen_Light", "changed"] freshCallback
      = Except.ok { triggers := some [some (ItemStateChangeTrigger.mkTrigger
                      "Kitchen_Light" Option.none Option.none)],
                    conditions := Option.none }
    ∧ (whenDecorate kitchenReg ["Item", "Kitchen_Light", "changed"] freshCallback
        >>= whenDecorate kitchenReg ["Banana", "split"])
      = Except.error (PyError.valueError "Could not parse Banana trigger: Banana split")
    ∧ onlyifDecorate emptyReg ["Banana", "split"] freshCallback
      = Except.error (PyError.valueError "Could not parse Banana condition: Banana split") := by
  refine ⟨by decide, by decide, by decide⟩

/-- C2 counterexample: `tim` is not a registered discriminator of any grammar
unit, yet the phrase `tim 0 0 * * ?` is dispatched to `CronTrigger` (Python
`in` on the string attribute `"time"` is a substring test), its recognizer is
invoked, and parsing even *succeeds* with the whole phrase as the cron
expression — the claim requires a `NoMatchingGrammar` failure with no
recognizer invoked. -/
theorem C2_counterexample :
    registeredDiscriminators.contains "tim" = false
    ∧ whenParseTraced emptyReg ["tim", "0", "0", "*", "*", "?"]
      = (Except.ok (ParseResult.one (CronTrigger.mkTrigger "tim 0 0 * * ?")),
         ["CronTrigger"]) := by
  refine ⟨by decide, by decide⟩

/-- C2 (amended): for every non-empty phrase whose lower-cased first word
matches no grammar unit under the code's containment test — exact membership
for list-valued discriminators, *substring* containment for string-valued
ones — `when.parse` raises the could-not-parse failure naming the first word
and the full phrase without invoking any grammar's recognizer, and likewise
for `onlyif.parse`. -/
theorem C2_amended (reg : Registry) (t0 : String) (rest : List String)
    (h1 : noTriggerDispatch t0 = true) (h2 : noConditionDispatch t0 = true) :
    whenParseTraced reg (t0 :: rest)
      = (Except.error (PyError.valueError
          ("Could not parse " ++ t0 ++ " trigger: " ++ joinTokens (t0 :: rest))), [])
    ∧ onlyifParseTraced reg (t0 :: rest)
      = (Except.error (PyError.valueError
          ("Could not parse " ++ t0 ++ " condition: " ++ joinTokens (t0 :: rest))), []) := by
  simp only [noTriggerDispatch, triggerClasses, List.all_cons, List.all_nil,
    Bool.and_eq_true, Bool.not_eq_true'] at h1
  simp only [noConditionDispatch, conditionClasses, List.all_cons, List.all_nil,
    Bool.and_eq_true, Bool.not_eq_true'] at h2
  obtain ⟨ha, hb, hc, hd, he, hf, hg, hh, hi, hj, hk, hl, -⟩ := h1
  obtain ⟨hm, hn, ho, -⟩ := h2
  constructor
  · simp [whenParseTraced, tryClasses, triggerClasses, ha, hb, hc, hd, he, hf, hg,
      hh, hi, hj, hk, hl]
  · simp [onlyifParseTraced, tryCondClasses, conditionClasses, hm, hn, ho]

/-- Witness for the amended C2 at the concrete phrase `banana split`. -/
theorem C2_amended_witness :
    whenParseTraced emptyReg ["banana", "split"]
      = (Except.error (PyError.valueError
          "Could not parse banana trigger: banana split"), [])
    ∧ onlyifParseTraced emptyReg ["banana", "split"]
      = (Except.error (PyError.valueError
          "Could not parse banana condition: banana split"), []) :=
  C2_amended emptyReg "banana" ["split"] (by decide) (by decide)

/-- C9: when a candidate grammar's recognizer matches but the referenced item
is not resolved by the registry, the `ValueError` carrying the missing name is
raised immediately out of the candidate loop: for `Item <nm> changed` with an
unresolved `nm`, the update grammar declines (its recognizer does not match),
the change grammar matches and raises, and no later grammar
(`ItemEventTrigger`, `ItemCommandTrigger`, ...) is attempted. -/
theorem C9_invalid_reference (reg : Registry) (nm : String)
    (h1 : isWordToken nm = true) (h2 : reg.items nm = Option.none) :
    whenParseTraced reg ["Item", nm, "changed"]
      = (Except.error (PyError.valueError ("Invalid item name: " ++ nm)),
         ["ItemStateUpdateTrigger", "ItemStateChangeTrigger"]) := by
  simp +decide [whenParseTraced, tryClasses, triggerClasses, liftP, fwMatch,
    StartupTrigger.parse, CronTrigger.parse, CronTrigger.matchTarget,
    DateTimeTrigger.parse, ItemStateUpdateTrigger.parse,
    ItemStateChangeTrigger.parse, itemHead, pairRun, pure, Except.pure, h1, h2]

/-- Witness for C9 at a registry that resolves nothing. -/
theorem C9_invalid_reference_witness :
    whenParseTraced emptyReg ["Item", "Nonexistent", "changed"]
      = (Except.error (PyError.valueError "Invalid item name: Nonexistent"),
         ["ItemStateUpdateTrigger", "ItemStateChangeTrigger"]) :=
  C9_invalid_reference emptyReg "Nonexistent" (by decide) rfl

/-- C4: a `Member of G ...` phrase whose group resolves in the registry
expands to exactly one trigger per immediate member, in registry enumeration
order, each carrying the identical configuration captured from the phrase
(`previousState`/`state` for `changed`, `state` for `received update`,
`command` for `received command`); a `Descendent of` qualifier enumerates the
full transitive membership instead. -/
theorem C4_group_expansion (reg : Registry) (g x y c : String) (it : Item)
    (hg : isWordToken g = true) (hc : isWordToken c = true)
    (_hx : isToken x = true) (_hy : isToken y = true)
    (hreg : reg.items g = some it) :
    whenParse reg ["Member", "of", g, "changed", "from", x, "to", y]
      = Except.ok (ParseResult.many (it.getMembers.map fun m =>
          ItemStateChangeTrigger.mkTrigger m.name (some x) (some y)))
    ∧ whenParse reg ["Member", "of", g, "changed"]
      = Except.ok (ParseResult.many (it.getMembers.map fun m =>
          ItemStateChangeTrigger.mkTrigger m.name Option.none Option.none))
    ∧ whenParse reg ["Member", "of", g, "received", "update", x]
      = Except.ok (ParseResult.many (it.getMembers.map fun m =>
          ItemStateUpdateTrigger.mkTrigger m.name (some x)))
    ∧ whenParse reg ["Member", "of", g, "received", "command", c]
      = Except.ok (ParseResult.many (it.getMembers.map fun m =>
          ItemCommandTrigger.mkTrigger m.name (some c)))
    ∧ whenParse reg ["Descendent", "of", g, "changed", "from", x, "to", y]
      = Except.ok (ParseResult.many (it.getAllMembers.map fun m =>
          ItemStateChangeTrigger.mkTrigger m.name (some x) (some y))) := by
  refine ⟨?_, ?_, ?_, ?_, ?_⟩ <;>
    simp +decide [whenParse, whenParseTraced, tryClasses, triggerClasses, liftP,
      fwMatch, StartupTrigger.parse, CronTrigger.parse, CronTrigger.matchTarget,
      DateTimeTrigger.parse, ItemStateUpdateTrigger.parse,
      ItemStateChangeTrigger.parse, ItemCommandTrigger.parse, itemHead, pairRun,
      lastTokenCapture, pure, Except.pure, hg, hc, hreg]

/-- Witness for C4 at the concrete group `gTest` with members `A`, `B`, `C`. -/
theorem C4_group_expansion_witness :
    whenParse groupReg ["Member", "of", "gTest", "changed", "from", "ON", "to", "OFF"]
      = Except.ok (ParseResult.many
          (((Item.mk "gTest" [Item.mk "A" [], Item.mk "B" [], Item.mk "C" []]).getMembers).map
            fun m => ItemStateChangeTrigger.mkTrigger m.name (some "ON") (some "OFF")))
    ∧ whenParse groupReg ["Member", "of", "gTest", "changed"]
      = Except.ok (ParseResult.many
          (((Item.mk "gTest" [Item.mk "A" [], Item.mk "B" [], Item.mk "C" []]).getMembers).map
            fun m => ItemStateChangeTrigger.mkTrigger m.name Option.none Option.none))
    ∧ whenParse groupReg ["Member", "of", "gTest", "received", "update", "ON"]
      = Except.ok (ParseResult.many
          (((Item.mk "gTest" [Item.mk "A" [], Item.mk "B" [], Item.mk "C" []]).getMembers).map
            fun m => ItemStateUpdateTrigger.mkTrigger m.name (some "ON")))
    ∧ whenParse groupReg ["Member", "of", "gTest", "received", "command", "OFF"]
      = Except.ok (ParseResult.many
          (((Item.mk "gTest" [Item.mk "A" [], Item.mk "B" [], Item.mk "C" []]).getMembers).map
            fun m => ItemCommandTrigger.mkTrigger m.name (some "OFF")))
    ∧ whenParse groupReg ["Descendent", "of", "gTest", "changed", "from", "ON", "to", "OFF"]
      = Except.ok (ParseResult.many
          (((Item.mk "gTest" [Item.mk "A" [], Item.mk "B" [], Item.mk "C" []]).getAllMembers).map
            fun m => ItemStateChangeTrigger.mkTrigger m.name (some "ON") (some "OFF"))) :=
  C4_group_expansion groupReg "gTest" "ON" "OFF" "OFF"
    (Item.mk "gTest" [Item.mk "A" [], Item.mk "B" [], Item.mk "C" []])
    (by decide) (by decide) (by decide) (by decide) rfl

/-- C5: negating `holiday` yields the not-holiday condition type with the
phrase's offset (0 for `Today is not a holiday`), negating `weekday` yields
the weekend condition type, negating `weekend` yields the weekday condition
type, and negating any other day-type token raises the unsupported-negation
`ValueError` instead of succeeding. -/
theorem C5_negation (reg : Registry) (d : String)
    (h1 : d ≠ "holiday") (h2 : d ≠ "weekday") (h3 : d ≠ "weekend") :
    onlyifParse reg ["Today", "is", "not", "a", "holiday"]
      = Except.ok { typeUID := "ephemeris.NotHolidayCondition",
                    config := [("offset", Value.int 0)] }
    ∧ onlyifParse reg ["Today", "is", "not", "a", "weekday"]
      = Except.ok { typeUID := "ephemeris.WeekendCondition",
                    config := [("offset", Value.int 0)] }
    ∧ onlyifParse reg ["Today", "is", "not", "a", "weekend"]
      = Except.ok { typeUID := "ephemeris.WeekdayCondition",
                    config := [("offset", Value.int 0)] }
    ∧ onlyifParse reg ["Today", "is", "not", "a", d]
      = Except.error (PyError.valueError "Unable to negate custom daytype: \x7b\x7d") := by
  refine ⟨?_, ?_, ?_, ?_⟩ <;>
    simp +decide [onlyifParse, onlyifParseTraced, tryCondClasses, conditionClasses,
      fwMatch, EphemerisCondition.parse, EphemerisCondition.mkCondition,
      ephemerisTypeUID, dayCandidates, firstCandidate, predPart, afterNot, afterIn,
      lastOne, itsToken, strLower, pure, Except.pure, h1, h2, h3]

/-- Witness for C5 at the custom day type `blackfriday`. -/
theorem C5_negation_witness :
    onlyifParse emptyReg ["Today", "is", "not", "a", "holiday"]
      = Except.ok { typeUID := "ephemeris.NotHolidayCondition",
                    config := [("offset", Value.int 0)] }
    ∧ onlyifParse emptyReg ["Today", "is", "not", "a", "weekday"]
      = Except.ok { typeUID := "ephemeris.WeekendCondition",
                    config := [("offset", Value.int 0)] }
    ∧ onlyifParse emptyReg ["Today", "is", "not", "a", "weekend"]
      = Except.ok { typeUID := "ephemeris.WeekdayCondition",
                    config := [("offset", Value.int 0)] }
    ∧ onlyifParse emptyReg ["Today", "is", "not", "a", "blackfriday"]
      = Except.error (PyError.valueError "Unable to negate custom daytype: \x7b\x7d") :=
  C5_negation emptyReg "blackfriday" (by decide) (by decide) (by decide)

/-- C7 counterexample: the claim says no configuration key is ever bound to a
`None` value and every absent optional parameter is omitted.  Both parts fail:
the phrase `Item ADDED` matches `ItemEventTrigger` (IGNORECASE) but the
case-sensitive `event_names.get("ADDED")` yields `None`, which is stored under
`eventTypes`; and the phrase `Time is Kitchen_Light` has no `[timeOnly]` flag
yet the built descriptor stores `timeOnly = false` because the parse path
always passes a bool to the constructor. -/
theorem C7_counterexample :
    whenParse emptyReg ["Item", "ADDED"]
      = Except.ok (ParseResult.one
          { typeUID := "core.GenericEventTrigger",
            config := [("eventTopic", Value.str "smarthome/items/*"),
                       ("eventSource", Value.str "smarthome/items/"),
                       ("eventTypes", Value.none)] })
    ∧ noNoneValues (ItemEventTrigger.mkTrigger Option.none) = false
    ∧ whenParse kitchenReg ["Time", "is", "Kitchen_Light"]
      = Except.ok (ParseResult.one
          { typeUID := "timer.DateTimeTrigger",
            config := [("itemName", Value.str "Kitchen_Light"),
                       ("timeOnly", Value.bool false)] }) := by
  refine ⟨by decide, by decide, by decide⟩

/-- C7 (amended): every Descriptor produced by a grammar unit's build has its
type UID set, binds no configuration key to `None` and omits absent optional
parameters (`state`, `previousState`, `command`, `status`, `event`) — with two
exceptions visible in the code: `DateTimeTrigger`'s parse path always supplies
the `timeOnly` flag (storing `timeOnly = false` when the phrase omits it), and
`Item`/`ThingEventTrigger` resolve the action word with a case-sensitive dict
lookup and store the result under `eventTypes` even when it is `None`. -/
theorem C7_amended
    (n u v dt : String) (s p ev o stv : Option String) (ob : Option Bool)
    (ks : List String) (wb : Bool) (d : Descriptor) (ov : Value)
    (hmk : ItemStateCondition.mkCondition n o stv = Except.ok d)
    (hov : ov ≠ Value.none) :
    (StartupTrigger.mkTrigger s).typeUID = "core.SystemStartlevelTrigger"
    ∧ noNoneValues (StartupTrigger.mkTrigger s) = true
    ∧ (CronTrigger.mkTrigger n).typeUID = "timer.GenericCronTrigger"
    ∧ noNoneValues (CronTrigger.mkTrigger n) = true
    ∧ (DateTimeTrigger.mkTrigger n ob).typeUID = "timer.DateTimeTrigger"
    ∧ noNoneValues (DateTimeTrigger.mkTrigger n ob) = true
    ∧ keys (DateTimeTrigger.mkTrigger n ob)
        = ["itemName"] ++ (if ob.isSome then ["timeOnly"] else [])
    ∧ whenParse kitchenReg ["Time", "is", "Kitchen_Light"]
        = Except.ok (ParseResult.one (DateTimeTrigger.mkTrigger "Kitchen_Light" (some false)))
    ∧ (ItemStateUpdateTrigger.mkTrigger n s).typeUID = "core.ItemStateUpdateTrigger"
    ∧ noNoneValues (ItemStateUpdateTrigger.mkTrigger n s) = true
    ∧ keys (ItemStateUpdateTrigger.mkTrigger n s)
        = ["itemName"] ++ (if s.isSome then ["state"] else [])
    ∧ (ItemStateChangeTrigger.mkTrigger n p s).typeUID = "core.ItemStateChangeTrigger"
    ∧ noNoneValues (ItemStateChangeTrigger.mkTrigger n p s) = true
    ∧ keys (ItemStateChangeTrigger.mkTrigger n p s)
        = ["itemName"] ++ (if s.isSome then ["state"] else [])
          ++ (if p.isSome then ["previousState"] else [])
    ∧ (ItemCommandTrigger.mkTrigger n s).typeUID = "core.ItemCommandTrigger"
    ∧ noNoneValues (ItemCommandTrigger.mkTrigger n s) = true
    ∧ keys (ItemCommandTrigger.mkTrigger n s)
        = ["itemName"] ++ (if s.isSome then ["command"] else [])
    ∧ (ThingStatusUpdateTrigger.mkTrigger u s).typeUID = "core.ThingStatusUpdateTrigger"
    ∧ noNoneValues (ThingStatusUpdateTrigger.mkTrigger u s) = true
    ∧ keys (ThingStatusUpdateTrigger.mkTrigger u s)
        = ["thingUID"] ++ (if s.isSome then ["status"] else [])
    ∧ (ThingStatusChangeTrigger.mkTrigger u p s).typeUID = "core.ThingStatusChangeTrigger"
    ∧ noNoneValues (ThingStatusChangeTrigger.mkTrigger u p s) = true
    ∧ keys (ThingStatusChangeTrigger.mkTrigger u p s)
        = ["thingUID"] ++ (if p.isSome then ["previousStatus"] else [])
          ++ (if s.isSome then ["status"] else [])
    ∧ (ChannelEventTrigger.mkTrigger u s).typeUID = "core.ChannelEventTrigger"
    ∧ noNoneValues (ChannelEventTrigger.mkTrigger u s) = true
    ∧ keys (ChannelEventTrigger.mkTrigger u s)
        = ["channelUID"] ++ (if s.isSome then ["event"] else [])
    ∧ (ItemEventTrigger.mkTrigger ev).typeUID = "core.GenericEventTrigger"
    ∧ keys (ItemEventTrigger.mkTrigger ev) = ["eventTopic", "eventSource", "eventTypes"]
    ∧ noNoneValues (ItemEventTrigger.mkTrigger ev) = ev.isSome
    ∧ (ThingEventTrigger.mkTrigger ev).typeUID = "core.GenericEventTrigger"
    ∧ keys (ThingEventTrigger.mkTrigger ev) = ["eventTopic", "eventSource", "eventTypes"]
    ∧ noNoneValues (ThingEventTrigger.mkTrigger ev) = ev.isSome
    ∧ (DirectoryEventTrigger.mkTrigger u ks wb).typeUID = "jsr223.DirectoryEventTrigger"
    ∧ noNoneValues (DirectoryEventTrigger.mkTrigger u ks wb) = true
    ∧ keys (DirectoryEventTrigger.mkTrigger u ks wb)
        = ["path", "event_kinds", "watch_subdirectories"]
    ∧ d.typeUID = "core.ItemStateCondition"
    ∧ noNoneValues d = true
    ∧ keys d = ["itemName", "operator", "state"]
    ∧ noNoneValues (EphemerisCondition.mkCondition dt ov) = true
    ∧ keys (EphemerisCondition.mkCondition dt ov)
        = (if (ephemerisTypeUID.lookup dt).isSome then ["offset"] else ["offset", "dayset"])
    ∧ (TimeOfDayCondition.mkCondition u v).typeUID = "core.TimeOfDayCondition"
    ∧ noNoneValues (TimeOfDayCondition.mkCondition u v) = true
    ∧ keys (TimeOfDayCondition.mkCondition u v) = ["startTime", "endTime"] := by
  have hov' : (ov == Value.none) = false := by
    simp only [beq_eq_false_iff_ne, ne_eq]
    exact hov
  rcases o with _ | o1 <;> rcases stv with _ | st1
  · exact Except.noConfusion hmk
  · exact Except.noConfusion hmk
  · exact Except.noConfusion hmk
  · have hd := Except.ok.inj hmk
    subst hd
    refine ⟨rfl, ?_, rfl, rfl, rfl, ?_, ?_, by decide, rfl, ?_, ?_, rfl, ?_, ?_,
      rfl, ?_, ?_, rfl, ?_, ?_, rfl, ?_, ?_, rfl, ?_, ?_, rfl, rfl, ?_, rfl, rfl,
      ?_, rfl, rfl, rfl, rfl, rfl, rfl, ?_, ?_, rfl, rfl, rfl⟩
    · cases s <;> rfl
    · cases ob <;> rfl
    · cases ob <;> rfl
    · cases s <;> rfl
    · cases s <;> rfl
    · cases p <;> cases s <;> rfl
    · cases p <;> cases s <;> rfl
    · cases s <;> rfl
    · cases s <;> rfl
    · cases s <;> rfl
    · cases s <;> rfl
    · cases p <;> cases s <;> rfl
    · cases p <;> cases s <;> rfl
    · cases s <;> rfl
    · cases s <;> rfl
    · cases ev <;> rfl
    · cases ev <;> rfl
    · rcases hdt : ephemerisTypeUID.lookup dt with _ | tuid <;>
        simp [EphemerisCondition.mkCondition, hdt, noNoneValues, hov']
    · rcases hdt : ephemerisTypeUID.lookup dt with _ | tuid <;>
        simp [EphemerisCondition.mkCondition, hdt, keys]

/-- The descriptor `ItemStateCondition.__init__` builds for item `N`, operator
`=` and state `ON` (used by the C7 witness). -/
def sampleItemStateCondition : Descriptor :=
  { typeUID := "core.ItemStateCondition",
    config := [("itemName", Value.str "N"), ("operator", Value.str "="),
               ("state", Value.str "ON")] }

/-- Witness for the amended C7 at concrete arguments. -/
theorem C7_amended_witness :
    (StartupTrigger.mkTrigger (some "50")).typeUID = "core.SystemStartlevelTrigger"
    ∧ noNoneValues (StartupTrigger.mkTrigger (some "50")) = true
    ∧ (CronTrigger.mkTrigger "N").typeUID = "timer.GenericCronTrigger"
    ∧ noNoneValues (CronTrigger.mkTrigger "N") = true
    ∧ (DateTimeTrigger.mkTrigger "N" (some true)).typeUID = "timer.DateTimeTrigger"
    ∧ noNoneValues (DateTimeTrigger.mkTrigger "N" (some true)) = true
    ∧ keys (DateTimeTrigger.mkTrigger "N" (some true))
        = ["itemName"] ++ (if (some true).isSome then ["timeOnly"] else [])
    ∧ whenParse kitchenReg ["Time", "is", "Kitchen_Light"]
        = Except.ok (ParseResult.one (DateTimeTrigger.mkTrigger "Kitchen_Light" (some false)))
    ∧ (ItemStateUpdateTrigger.mkTrigger "N" (some "ON")).typeUID = "core.ItemStateUpdateTrigger"
    ∧ noNoneValues (ItemStateUpdateTrigger.mkTrigger "N" (some "ON")) = true
    ∧ keys (ItemStateUpdateTrigger.mkTrigger "N" (some "ON"))
        = ["itemName"] ++ (if (some "ON" : Option String).isSome then ["state"] else [])
    ∧ (ItemStateChangeTrigger.mkTrigger "N" (some "OFF") (some "ON")).typeUID
        = "core.ItemStateChangeTrigger"
    ∧ noNoneValues (ItemStateChangeTrigger.mkTrigger "N" (some "OFF") (some "ON")) = true
    ∧ keys (ItemStateChangeTrigger.mkTrigger "N" (some "OFF") (some "ON"))
        = ["itemName"] ++ (if (some "ON" : Option String).isSome then ["state"] else [])
          ++ (if (some "OFF" : Option String).isSome then ["previousState"] else [])
    ∧ (ItemCommandTrigger.mkTrigger "N" (some "ON")).typeUID = "core.ItemCommandTrigger"
    ∧ noNoneValues (ItemCommandTrigger.mkTrigger "N" (some "ON")) = true
    ∧ keys (ItemCommandTrigger.mkTrigger "N" (some "ON"))
        = ["itemName"] ++ (if (some "ON" : Option String).isSome then ["command"] else [])
    ∧ (ThingStatusUpdateTrigger.mkTrigger "U" (some "ON")).typeUID = "core.ThingStatusUpdateTrigger"
    ∧ noNoneValues (ThingStatusUpdateTrigger.mkTrigger "U" (some "ON")) = true
    ∧ keys (ThingStatusUpdateTrigger.mkTrigger "U" (some "ON"))
        = ["thingUID"] ++ (if (some "ON" : Option String).isSome then ["status"] else [])
    ∧ (ThingStatusChangeTrigger.mkTrigger "U" (some "OFF") (some "ON")).typeUID
        = "core.ThingStatusChangeTrigger"
    ∧ noNoneValues (ThingStatusChangeTrigger.mkTrigger "U" (some "OFF") (some "ON")) = true
    ∧ keys (ThingStatusChangeTrigger.mkTrigger "U" (some "OFF") (some "ON"))
        = ["thingUID"] ++ (if (some "OFF" : Option String).isSome then ["previousStatus"] else [])
          ++ (if (some "ON" : Option String).isSome then ["status"] else [])
    ∧ (ChannelEventTrigger.mkTrigger "U" (some "ON")).typeUID = "core.ChannelEventTrigger"
    ∧ noNoneValues (ChannelEventTrigger.mkTrigger "U" (some "ON")) = true
    ∧ keys (ChannelEventTrigger.mkTrigger "U" (some "ON"))
        = ["channelUID"] ++ (if (some "ON" : Option String).isSome then ["event"] else [])
    ∧ (ItemEventTrigger.mkTrigger (some "ItemAddedEvent")).typeUID = "core.GenericEventTrigger"
    ∧ keys (ItemEventTrigger.mkTrigger (some "ItemAddedEvent"))
        = ["eventTopic", "eventSource", "eventTypes"]
    ∧ noNoneValues (ItemEventTrigger.mkTrigger (some "ItemAddedEvent"))
        = (some "ItemAddedEvent" : Option String).isSome
    ∧ (ThingEventTrigger.mkTrigger (some "ItemAddedEvent")).typeUID = "core.GenericEventTrigger"
    ∧ keys (ThingEventTrigger.mkTrigger (some "ItemAddedEvent"))
        = ["eventTopic", "eventSource", "eventTypes"]
    ∧ noNoneValues (ThingEventTrigger.mkTrigger (some "ItemAddedEvent"))
        = (some "ItemAddedEvent" : Option String).isSome
    ∧ (DirectoryEventTrigger.mkTrigger "U" ["ENTRY_CREATE"] true).typeUID
        = "jsr223.DirectoryEventTrigger"
    ∧ noNoneValues (DirectoryEventTrigger.mkTrigger "U" ["ENTRY_CREATE"] true) = true
    ∧ keys (DirectoryEventTrigger.mkTrigger "U" ["ENTRY_CREATE"] true)
        = ["path", "event_kinds", "watch_subdirectories"]
    ∧ sampleItemStateCondition.typeUID = "core.ItemStateCondition"
    ∧ noNoneValues sampleItemStateCondition = true
    ∧ keys sampleItemStateCondition = ["itemName", "operator", "state"]
    ∧ noNoneValues (EphemerisCondition.mkCondition "holiday" (Value.int 0)) = true
    ∧ keys (EphemerisCondition.mkCondition "holiday" (Value.int 0))
        = (if (ephemerisTypeUID.lookup "holiday").isSome then ["offset"]
           else ["offset", "dayset"])
    ∧ (TimeOfDayCondition.mkCondition "U" "V").typeUID = "core.TimeOfDayCondition"
    ∧ noNoneValues (TimeOfDayCondition.mkCondition "U" "V") = true
    ∧ keys (TimeOfDayCondition.mkCondition "U" "V") = ["startTime", "endTime"] :=
  C7_amended "N" "U" "V" "holiday" (some "ON") (some "OFF") (some "ItemAddedEvent")
    (some "=") (some "ON") (some true) ["ENTRY_CREATE"] true
    sampleItemStateCondition (Value.int 0) rfl (by decide)

end OHP
